import Mathlib

/-!
Shallow embedding of the crashcart-ng injection pipeline, mirroring
src/container.rs, src/image.rs, src/namespace.rs and src/mount.rs.
Subprocess results (docker, podman, ctr, losetup, nsenter) are supplied
by explicit environment records; kernel-visible effects (loop bindings,
the target mount namespace) are threaded as explicit state.
-/

set_option maxRecDepth 100000

deriving instance DecidableEq for Except

namespace Crashcart

/-! ### src/container.rs -/

/-- Rust u32 string parsing as used by `target.parse::<u32>()`: one
optional leading plus sign, then a non-empty run of ASCII digits, and
the value must fit in 32 bits.  Checked arithmetic overflows exactly
when the final value exceeds the bound, because the accumulator is
monotone in the consumed digits. -/
def parseU32 (s : String) : Option Nat :=
  let ds : List Char :=
    match s.data with
    | '+' :: r => r
    | r => r
  if ds.isEmpty then none
  else if ds.all (fun c => c.isDigit) then
    let n := ds.foldl (fun a c => a * 10 + (c.toNat - 48)) 0
    if n < 4294967296 then some n else none
  else none

/-- The four shapes of `ContainerRuntime` in src/container.rs. -/
inductive ContainerRuntime
  | docker (id : String)
  | containerd (id : String)
  | podman (id : String)
  | pid (n : Nat)
deriving DecidableEq

/-- Which engine probe subprocess `detect` spawned. -/
inductive Probe
  | docker
  | podman
  | containerd
deriving DecidableEq

/-- Environment for `detect`: whether each engine inspect probe exits
zero for a given id.  A probe whose binary is absent behaves like a
non-zero exit, because the spawn error is caught by the same
`if let Ok` fallthrough. -/
structure ProbeEnv where
  dockerOk : String → Bool
  podmanOk : String → Bool
  ctrOk : String → Bool

/-- Rust str::starts_with, char for char (also used for the loop device
path test): `p` is a prefix of `s`. -/
def strStarts (p s : String) : Bool :=
  p.data.isPrefixOf s.data

/-- Error text of `detect` when nothing matches (src/container.rs line 37). -/
def notFoundMsg (target : String) : String :=
  "Could not find container or process with ID: " ++ target

/-- `ContainerRuntime::detect`: first the PID parse, then the docker,
podman and containerd probes in that order.  The second component
records the probes actually spawned, in order. -/
def detect (target : String) (e : ProbeEnv) :
    Except String ContainerRuntime × List Probe :=
  match parseU32 target with
  | some n => (.ok (.pid n), [])
  | none =>
    if e.dockerOk target then (.ok (.docker target), [.docker])
    else if e.podmanOk target then (.ok (.podman target), [.docker, .podman])
    else if e.ctrOk target then
      (.ok (.containerd target), [.docker, .podman, .containerd])
    else (.error (notFoundMsg target), [.docker, .podman, .containerd])

/-- One task object from `ctr task list --format json`; the source reads
the ID and Pid fields. -/
structure CtrTask where
  ID : String
  Pid : Nat
deriving DecidableEq

/-- Which subprocess `get_pid` spawned. -/
inductive PidSpawn
  | dockerInspect (id : String)
  | podmanInspect (id : String)
  | ctrTaskList
deriving DecidableEq

/-- Environment for `get_pid`: stdout of the engine inspect commands
(`none` means the spawn itself failed) and the parsed containerd task
list (`none` means the spawn or the JSON parse failed). -/
structure PidEnv where
  dockerPidStdout : String → Option String
  podmanPidStdout : String → Option String
  ctrTasks : Option (List CtrTask)

/-- `ContainerRuntime::get_pid`.  The raw PID variant answers directly;
the docker and podman variants trim and parse the inspect stdout; the
containerd variant scans the task list for the first entry whose ID has
the handle id as a prefix.  The u64 to u32 cast truncates. -/
def get_pid (r : ContainerRuntime) (e : PidEnv) :
    Except String Nat × List PidSpawn :=
  match r with
  | .pid n => (.ok n, [])
  | .docker id =>
    match e.dockerPidStdout id with
    | none => (.error "Failed to get Docker container PID", [.dockerInspect id])
    | some out =>
      match parseU32 out.trim with
      | some n => (.ok n, [.dockerInspect id])
      | none => (.error "Failed to parse Docker PID", [.dockerInspect id])
  | .podman id =>
    match e.podmanPidStdout id with
    | none => (.error "Failed to get Podman container PID", [.podmanInspect id])
    | some out =>
      match parseU32 out.trim with
      | some n => (.ok n, [.podmanInspect id])
      | none => (.error "Failed to parse Podman PID", [.podmanInspect id])
  | .containerd id =>
    match e.ctrTasks with
    | none => (.error "Failed to list containerd tasks", [.ctrTaskList])
    | some tasks =>
      match tasks.find? (fun t => strStarts id t.ID) with
      | some t => (.ok (t.Pid % 4294967296), [.ctrTaskList])
      | none =>
        (.error ("Could not find PID for containerd container " ++ id),
         [.ctrTaskList])

/-! ### src/image.rs -/

/-- The `ImageManager` struct: the image path and the optional loop
device slot.  It derives Clone; clones share no further state. -/
structure ImageManager where
  image_path : String
  loop_device : Option String
deriving DecidableEq

/-- How `verify_image` classified the file: ext2/3/4 superblock magic
found, or assumed to be an archive format. -/
inductive VerifyKind
  | extFs
  | archive
deriving DecidableEq

/-- `Read::read_exact` of `n` bytes at offset `off` of a file whose
contents are `bytes`: succeeds with exactly that slice when enough
bytes remain, otherwise fails. -/
def readAt (bytes : List Nat) (off n : Nat) : Option (List Nat) :=
  if off + n ≤ bytes.length then some ((bytes.drop off).take n) else none

/-- `ImageManager::verify_image` on the contents of the image file:
error when the file is smaller than 1024 bytes; then a 1024-byte header
read; then a 2-byte read at offset 1080 compared against 0x53 0xEF,
whose failure (short file) falls through to the archive outcome. -/
def verify_image (bytes : List Nat) : Except String VerifyKind :=
  if bytes.length < 1024 then .error "Image file too small"
  else
    match readAt bytes 0 1024 with
    | none => .error "Failed to read image header"
    | some _ =>
      match readAt bytes 1080 2 with
      | some magic =>
        if magic = [0x53, 0xEF] then .ok .extFs else .ok .archive
      | none => .ok .archive

/-- A kernel-visible loop device operation performed by losetup. -/
inductive LoopOp
  | bind (dev img : String)
  | detach (dev : String)
deriving DecidableEq

/-- Effect of one loop operation on the set of live (device, backing
file) bindings. -/
def applyLoopOp (live : List (String × String)) : LoopOp → List (String × String)
  | .bind d i => (d, i) :: live
  | .detach d => live.filter (fun b => b.1 ≠ d)

/-- Live bindings after a sequence of loop operations, starting from none. -/
def liveAfter (ops : List LoopOp) : List (String × String) :=
  ops.foldl applyLoopOp []

/-- `ImageManager::setup_loop_device`: return the cached device when the
slot is full; otherwise take the `losetup -f` candidate (`none` models
its failure), run the bind (`assocOk` models its exit status), and
record the device.  Returns the updated handle, the result, and the
kernel operations performed. -/
def setup_loop_device (m : ImageManager) (freeOut : Option String)
    (assocOk : Bool) : ImageManager × Except String String × List LoopOp :=
  match m.loop_device with
  | some d => (m, .ok d, [])
  | none =>
    match freeOut with
    | none => (m, .error "losetup -f failed", [])
    | some dev =>
      if assocOk then
        ({ m with loop_device := some dev }, .ok dev, [.bind dev m.image_path])
      else (m, .error "Failed to associate loop device", [])

/-- `ImageManager::cleanup_loop_device`: no-op when the slot is empty;
otherwise run `losetup -d` and clear the slot on success.  A failed
detach is an error and leaves the slot (and the kernel binding) as is. -/
def cleanup_loop_device (m : ImageManager) (detachOk : Bool) :
    ImageManager × Except String Unit × List LoopOp :=
  match m.loop_device with
  | none => (m, .ok (), [])
  | some d =>
    if detachOk then ({ m with loop_device := none }, .ok (), [.detach d])
    else (m, .error "Failed to detach loop device", [])

/-- One call a client can make on an image handle, with the outcomes of
the losetup subprocesses it may spawn. -/
inductive LoopEvent
  | setup (freeOut : Option String) (assocOk : Bool)
  | cleanup (detachOk : Bool)
deriving DecidableEq

/-- Run one event against a handle, extending the kernel operation log. -/
def runLoopEvent (m : ImageManager) (ops : List LoopOp) :
    LoopEvent → ImageManager × List LoopOp
  | .setup f a =>
    let r := setup_loop_device m f a
    (r.1, ops ++ r.2.2)
  | .cleanup d =>
    let r := cleanup_loop_device m d
    (r.1, ops ++ r.2.2)

/-- Run a fresh handle for `path` through a sequence of events. -/
def runLoopEvents (path : String) (es : List LoopEvent) :
    ImageManager × List LoopOp :=
  es.foldl (fun p e => runLoopEvent p.1 p.2 e) (⟨path, none⟩, [])

/-- The slot invariant of the image handle: the slot is full with
device d exactly when the one live kernel binding made by this handle
is d bound to the handle image; the slot is empty exactly when this
handle has no live binding. -/
def SlotInv (m : ImageManager) (ops : List LoopOp) : Prop :=
  match m.loop_device with
  | some d => liveAfter ops = [(d, m.image_path)]
  | none => liveAfter ops = []

/-! ### src/namespace.rs -/

/-- The namespace types handled by `enter_single_namespace`. -/
inductive NsType
  | mnt
  | uts
  | ipc
  | net
  | pid
  | cgroup
  | user
deriving DecidableEq

/-- The `CloneFlags` values passed to setns. -/
inductive CloneFlag
  | newns
  | newuts
  | newipc
  | newnet
  | newpid
  | newcgroup
  | newuser
deriving DecidableEq

/-- The clone flag `enter_single_namespace` selects for each namespace
type (the match at src/namespace.rs lines 167 to 176). -/
def cloneFlagFor : NsType → CloneFlag
  | .mnt => .newns
  | .uts => .newuts
  | .ipc => .newipc
  | .net => .newnet
  | .pid => .newpid
  | .cgroup => .newcgroup
  | .user => .newuser

/-- Kernel side: the nstype flag that matches a namespace descriptor of
each type (setns rejects a non-zero nstype that does not match the
descriptor). -/
def kernelFlagOf : NsType → CloneFlag
  | .mnt => .newns
  | .uts => .newuts
  | .ipc => .newipc
  | .net => .newnet
  | .pid => .newpid
  | .cgroup => .newcgroup
  | .user => .newuser

/-- An open descriptor on /proc/[pid]/ns/[t]: the (dev, ino) identity of
the namespace it pins, and the namespace type. -/
structure NsFd where
  dev : Nat
  ino : Nat
  ty : NsType
deriving DecidableEq

/-- Whether a setns call with this descriptor and flag succeeds. -/
def setnsOk (fd : NsFd) (flag : CloneFlag) : Bool :=
  kernelFlagOf fd.ty = flag

/-- The caller attachment: for each namespace type, the (dev, ino) of
the namespace the caller is currently in. -/
structure NsView where
  mnt : Nat × Nat
  uts : Nat × Nat
  ipc : Nat × Nat
  net : Nat × Nat
  pid : Nat × Nat
  cgroup : Nat × Nat
  user : Nat × Nat
deriving DecidableEq

def NsView.get (v : NsView) : NsType → Nat × Nat
  | .mnt => v.mnt
  | .uts => v.uts
  | .ipc => v.ipc
  | .net => v.net
  | .pid => v.pid
  | .cgroup => v.cgroup
  | .user => v.user

def NsView.set (v : NsView) : NsType → Nat × Nat → NsView
  | .mnt, x => { v with mnt := x }
  | .uts, x => { v with uts := x }
  | .ipc, x => { v with ipc := x }
  | .net, x => { v with net := x }
  | .pid, x => { v with pid := x }
  | .cgroup, x => { v with cgroup := x }
  | .user, x => { v with user := x }

/-- The `NamespaceGuard` struct: only the saved original descriptor. -/
structure NamespaceGuard where
  original_ns : Option NsFd
deriving DecidableEq

/-- `enter_single_namespace`: open the caller and target descriptors,
compare (dev, ino), return an empty guard when equal, otherwise setns
into the target with the per-type flag and save the original
descriptor.  `self` is the caller attachment (what /proc/self/ns shows)
and `target` the target attachment; the Bool inputs model whether the
two opens succeed.  Returns the new caller attachment and the guard. -/
def enter_single_namespace (self target : NsView) (t : NsType)
    (openSelfOk openTargetOk : Bool) :
    Except String (NsView × NamespaceGuard) :=
  if ¬ openSelfOk then .error "Failed to open current namespace"
  else if ¬ openTargetOk then .error "Failed to open target namespace"
  else
    let currentFd : NsFd := ⟨(self.get t).1, (self.get t).2, t⟩
    let targetFd : NsFd := ⟨(target.get t).1, (target.get t).2, t⟩
    if self.get t = target.get t then .ok (self, ⟨none⟩)
    else if setnsOk targetFd (cloneFlagFor t) then
      .ok (self.set t (target.get t), ⟨some currentFd⟩)
    else .error "Failed to enter namespace"

/-- The setns calls issued by `Drop for NamespaceGuard`: exactly one
call with CLONE_NEWNS on the saved descriptor, whatever namespace type
that descriptor refers to (src/namespace.rs line 72 hardcodes
CLONE_NEWNS). -/
def guardDropCalls (g : NamespaceGuard) : List (NsFd × CloneFlag) :=
  match g.original_ns with
  | none => []
  | some fd => [(fd, CloneFlag.newns)]

/-- Kernel effect of the guard drop on the caller attachment: the setns
back to the saved descriptor succeeds only when CLONE_NEWNS matches the
descriptor type; on failure the Drop only logs and the attachment stays. -/
def guardDrop (g : NamespaceGuard) (st : NsView) : NsView :=
  match g.original_ns with
  | none => st
  | some fd =>
    if setnsOk fd CloneFlag.newns then st.set fd.ty (fd.dev, fd.ino) else st

/-! ### src/namespace.rs, exec_in_namespace -/

def ldSoPath : String := "/dev/crashcart/lib64/ld-linux-x86-64.so.2"

def libraryPathArg : String :=
  "/dev/crashcart/lib:/dev/crashcart/lib64:/dev/crashcart/usr/lib:/dev/crashcart/usr/lib64"

/-- The command vector `exec_in_namespace` builds before nsenter: the
default debug shell argv when the command is empty, otherwise the
dynamic linker prefix followed by the caller command. -/
def wrappedCmd (command : List String) : List String :=
  if command.isEmpty then
    [ldSoPath, "--library-path", libraryPathArg,
     "/dev/crashcart/usr/bin/bash", "--rcfile", "/dev/crashcart/.crashcartrc",
     "-i"]
  else
    [ldSoPath, "--library-path", libraryPathArg] ++ command

/-- A subprocess as configured by tokio Command: program, argument list,
and environment entries added for the child only. -/
structure SpawnedCommand where
  program : String
  args : List String
  extraEnv : List (String × String)
deriving DecidableEq

/-- How the child terminated. -/
inductive ExitStatus
  | exited (code : Int)
  | signalled (sig : Nat)
deriving DecidableEq

/-- `ExitStatus::code`: the exit code, or none when signalled. -/
def statusCode : ExitStatus → Option Int
  | .exited c => some c
  | .signalled _ => none

/-- The nsenter invocation `exec_in_namespace` configures. -/
def buildNsenterCommand (pid : Nat) (command : List String)
    (envVar : Option (String × String)) : SpawnedCommand :=
  { program := "nsenter"
    args := ["-t", toString pid, "-m", "-u", "-i", "-n", "-p", "--"]
      ++ wrappedCmd command
    extraEnv := envVar.toList }

/-- `exec_in_namespace`: the spawned command and its result.  `spawnOk`
models whether the spawn itself succeeded; on success the return value
is the child exit code, with -1 substituted when the child was
signalled (`status.code().unwrap_or(-1)`). -/
def exec_in_namespace (pid : Nat) (command : List String)
    (envVar : Option (String × String)) (spawnOk : Bool) (st : ExitStatus) :
    SpawnedCommand × Except String Int :=
  (buildNsenterCommand pid command envVar,
   if spawnOk then .ok ((statusCode st).getD (-1))
   else .error "Failed to execute nsenter")

/-! ### src/mount.rs -/

/-- One line of /proc/mounts inside the target mount namespace. -/
structure MountEntry where
  source : String
  mountpoint : String
  fstype : String
deriving DecidableEq

/-- The target mount namespace as the mount and unmount scripts see it:
the mount table (most recent first), the directories that exist, and
the device nodes (path and minor-number text) that exist. -/
structure NsState where
  mounts : List MountEntry
  dirs : List String
  nodes : List (String × String)
deriving DecidableEq

/-- Host plus target state: the target namespace view and the live host
loop-device bindings (device, backing file). -/
structure Sys where
  ns : NsState
  loop : List (String × String)
deriving DecidableEq

/-- `mountpoint -q p` / the /proc/mounts scan of `is_mounted`: some
mount table entry has `p` as its mountpoint column. -/
def isMountpoint (ns : NsState) (p : String) : Bool :=
  ns.mounts.any (fun m => m.mountpoint = p)

/-- The loop devices the host offers. -/
def loopPool : List String :=
  ["/dev/loop0", "/dev/loop1", "/dev/loop2", "/dev/loop3",
   "/dev/loop4", "/dev/loop5", "/dev/loop6", "/dev/loop7"]

/-- `losetup -f`: the first loop device with no live binding. -/
def freeLoopDev (bound : List (String × String)) : Option String :=
  loopPool.find? (fun d => bound.all (fun b => b.1 ≠ d))

/-- The minor-number text spliced into the mknod script line:
`loop_device.strip_prefix("/dev/loop").unwrap_or("0")`. -/
def loopMinorStr (dev : String) : String :=
  if strStarts "/dev/loop" dev then String.mk (dev.data.drop 9) else "0"

/-- `mkdir -p`: add a directory if absent. -/
def addDir (dirs : List String) (p : String) : List String :=
  if p ∈ dirs then dirs else p :: dirs

/-- `mknod ... 2>/dev/null || true`: create the node unless one already
exists at that path; never fails. -/
def addNode (nodes : List (String × String)) (p minor : String) :
    List (String × String) :=
  if nodes.any (fun n => n.1 = p) then nodes else (p, minor) :: nodes

/-- Whether `p` is `root` or lies underneath it. -/
def pathWithin (root p : String) : Bool :=
  p = root || strStarts (root ++ "/") p

/-- `rm -rf root` / `remove_dir_all`: drop the directory and everything
under it. -/
def rmTree (ns : NsState) (root : String) : NsState :=
  { ns with
    dirs := ns.dirs.filter (fun d => ! pathWithin root d),
    nodes := ns.nodes.filter (fun n => ! pathWithin root n.1) }

/-- `umount p`: remove the most recent mount table entry at `p`. -/
def removeFirstMount : List MountEntry → String → List MountEntry
  | [], _ => []
  | m :: rest, p =>
    if m.mountpoint = p then rest else m :: removeFirstMount rest p

def removeMountAt (ns : NsState) (p : String) : NsState :=
  { ns with mounts := removeFirstMount ns.mounts p }

/-- The bash mount script of `mount_with_nsenter`, run with set -e:
exit 0 at once when /dev/crashcart is already a mountpoint; otherwise
make both directories, mount a tmpfs at /dev/cc-loop unless already
mounted, mknod the loop node, and mount it ext4 read-only at
/dev/crashcart.  `extOk` models whether that last mount succeeds (the
script tries only ext4); on failure set -e aborts the script. -/
def runMountScript (loopDev : String) (extOk : Bool) (ns : NsState) :
    Bool × NsState :=
  if isMountpoint ns "/dev/crashcart" then (true, ns)
  else
    let ns1 : NsState :=
      { ns with dirs := addDir (addDir ns.dirs "/dev/cc-loop") "/dev/crashcart" }
    let ns2 : NsState :=
      if isMountpoint ns1 "/dev/cc-loop" then ns1
      else { ns1 with mounts := ⟨"tmpfs", "/dev/cc-loop", "tmpfs"⟩ :: ns1.mounts }
    let ns3 : NsState :=
      { ns2 with
        nodes := addNode ns2.nodes "/dev/cc-loop/crashcart" (loopMinorStr loopDev) }
    if extOk then
      (true,
       { ns3 with
         mounts := ⟨"/dev/cc-loop/crashcart", "/dev/crashcart", "ext4"⟩ :: ns3.mounts })
    else (false, ns3)

/-- `MountManager::mount_with_nsenter`: verify the image, set up the
loop device on a clone of the handle (the clone, and with it the
recorded device, is dropped when the call returns, so the caller handle
never learns the device), then run the mount script through nsenter.
`img` is the contents of the image file, `spawnOk` models the nsenter
spawn, `extOk` the ext4 mount inside the script.  The losetup bind of a
free device is modelled as succeeding. -/
def mount_with_nsenter (m : ImageManager) (img : List Nat)
    (spawnOk extOk : Bool) (s : Sys) : Except String Unit × Sys :=
  match verify_image img with
  | .error e => (.error e, s)
  | .ok _ =>
    let c := setup_loop_device m (freeLoopDev s.loop) true
    match c.2.1 with
    | .error e => (.error e, s)
    | .ok dev =>
      let s1 : Sys := { s with loop := c.2.2.foldl applyLoopOp s.loop }
      if spawnOk then
        let r := runMountScript dev extOk s1.ns
        if r.1 then (.ok (), { s1 with ns := r.2 })
        else (.error "Mount script failed", { s1 with ns := r.2 })
      else (.error "Failed to execute mount script with nsenter", s1)

/-- The teardown actions, shared by the two unmount strategies. -/
inductive TearStep
  | umountCrashcart
  | rmCrashcart
  | umountLoop
  | rmLoop
  | releaseLoop
deriving DecidableEq

/-- Tail of the bash unmount script after the /dev/crashcart umount:
rm -rf /dev/crashcart, umount /dev/cc-loop when mounted (set -e aborts
on failure), rm -rf /dev/cc-loop. -/
def unmountScriptTail (uLoopOk : Bool) (ns : NsState) :
    Bool × NsState × List TearStep :=
  let ns1 := rmTree ns "/dev/crashcart"
  if isMountpoint ns1 "/dev/cc-loop" then
    if uLoopOk then
      let ns2 := removeMountAt ns1 "/dev/cc-loop"
      (true, rmTree ns2 "/dev/cc-loop",
       [TearStep.rmCrashcart, TearStep.umountLoop, TearStep.rmLoop])
    else (false, ns1, [TearStep.rmCrashcart, TearStep.umountLoop])
  else
    (true, rmTree ns1 "/dev/cc-loop", [TearStep.rmCrashcart, TearStep.rmLoop])

/-- The bash unmount script of `unmount_with_nsenter`, run with set -e:
umount /dev/crashcart when mounted (abort on failure), then the tail.
Returns whether the script exited zero, the namespace afterwards, and
the steps that actually ran. -/
def runUnmountScript (uCrashOk uLoopOk : Bool) (ns : NsState) :
    Bool × NsState × List TearStep :=
  if isMountpoint ns "/dev/crashcart" then
    if uCrashOk then
      let r := unmountScriptTail uLoopOk (removeMountAt ns "/dev/crashcart")
      (r.1, r.2.1, TearStep.umountCrashcart :: r.2.2)
    else (false, ns, [TearStep.umountCrashcart])
  else unmountScriptTail uLoopOk ns

/-- `MountManager::unmount_with_nsenter`: run the unmount script through
nsenter (a spawn failure is an error before anything else runs); a
non-zero script is only warned about; then always `cleanup_loop_device`
on a clone of the handle, whose error is the only one propagated. -/
def unmount_with_nsenter (m : ImageManager)
    (spawnOk uCrashOk uLoopOk detachOk : Bool) (s : Sys) :
    Except String Unit × Sys × List TearStep :=
  if spawnOk then
    let r := runUnmountScript uCrashOk uLoopOk s.ns
    let c := cleanup_loop_device m detachOk
    let s2 : Sys := ⟨r.2.1, c.2.2.foldl applyLoopOp s.loop⟩
    match c.2.1 with
    | .error e => (.error e, s2, r.2.2 ++ [TearStep.releaseLoop])
    | .ok _ => (.ok (), s2, r.2.2 ++ [TearStep.releaseLoop])
  else (.error "Failed to execute unmount script with nsenter", s, [])

/-- `MountManager::cleanup_mount_directories`: remove the mount point
directory when it exists (warn only), umount the /dev/cc-loop tmpfs
when mounted (warn only, `uLoopOk` models the umount), remove the
/dev/cc-loop directory when it exists (warn only).  A removal of a
directory that is still a mountpoint fails and is warned about. -/
def cleanup_mount_directories (uLoopOk : Bool) (ns : NsState) :
    NsState × List TearStep :=
  let a : NsState × List TearStep :=
    if "/dev/crashcart" ∈ ns.dirs then
      (if isMountpoint ns "/dev/crashcart" then ns
       else rmTree ns "/dev/crashcart",
       [TearStep.rmCrashcart])
    else (ns, [])
  let b : NsState × List TearStep :=
    if isMountpoint a.1 "/dev/cc-loop" then
      (if uLoopOk then removeMountAt a.1 "/dev/cc-loop" else a.1,
       a.2 ++ [TearStep.umountLoop])
    else (a.1, a.2)
  if "/dev/cc-loop" ∈ b.1.dirs then
    (if isMountpoint b.1 "/dev/cc-loop" then b.1 else rmTree b.1 "/dev/cc-loop",
     b.2 ++ [TearStep.rmLoop])
  else (b.1, b.2)

/-- Shared tail of `MountManager::unmount`: the best-effort directory
cleanup, then `cleanup_loop_device` on a clone of the handle, whose
error is propagated. -/
def unmountInprocTail (m : ImageManager) (uLoopOk detachOk : Bool) (s : Sys)
    (steps : List TearStep) : Except String Unit × Sys × List TearStep :=
  let r := cleanup_mount_directories uLoopOk s.ns
  let c := cleanup_loop_device m detachOk
  let s2 : Sys := ⟨r.1, c.2.2.foldl applyLoopOp s.loop⟩
  match c.2.1 with
  | .error e => (.error e, s2, steps ++ r.2 ++ [TearStep.releaseLoop])
  | .ok _ => (.ok (), s2, steps ++ r.2 ++ [TearStep.releaseLoop])

/-- `MountManager::unmount` (the in-process strategy): enter the mount
namespace (`guardOk` models the guard acquisition), then, when
/dev/crashcart is mounted, umount it with the error operator — a
failure here returns at once and nothing further runs — then the
best-effort tail. -/
def unmount_inproc (m : ImageManager)
    (guardOk umountOk uLoopOk detachOk : Bool) (s : Sys) :
    Except String Unit × Sys × List TearStep :=
  if guardOk then
    if isMountpoint s.ns "/dev/crashcart" then
      if umountOk then
        unmountInprocTail m uLoopOk detachOk
          { s with ns := removeMountAt s.ns "/dev/crashcart" }
          [TearStep.umountCrashcart]
      else
        (.error "Failed to unmount crashcart filesystem", s,
         [TearStep.umountCrashcart])
    else unmountInprocTail m uLoopOk detachOk s []
  else (.error "Failed to enter mount namespace", s, [])

/-- An image manager as main.rs builds it: slot empty. -/
def freshManager (path : String) : ImageManager := ⟨path, none⟩

/-- A clean initial state: nothing mounted, no directories, no loop
bindings. -/
def cleanSys : Sys := ⟨⟨[], [], []⟩, []⟩

/-- A minimal valid image: 1024 zero bytes (passes the size check, too
short for the ext magic, so classified as an archive). -/
def img0 : List Nat := List.replicate 1024 0


/-! ### Concrete scenarios used by witnesses and counterexamples -/

/-- A probe environment in which no engine knows the target. -/
def probeEnvNone : ProbeEnv := ⟨fun _ => false, fun _ => false, fun _ => false⟩

/-- A get_pid environment in which every subprocess fails. -/
def pidEnvNone : PidEnv := ⟨fun _ => none, fun _ => none, none⟩

/-- A caller attachment: namespace (dev, ino) identities 100 to 106. -/
def nsSelf0 : NsView :=
  ⟨(1, 100), (1, 101), (1, 102), (1, 103), (1, 104), (1, 105), (1, 106)⟩

/-- A target attachment distinct from `nsSelf0` in every type. -/
def nsTarget0 : NsView :=
  ⟨(1, 200), (1, 201), (1, 202), (1, 203), (1, 204), (1, 205), (1, 206)⟩

/-- One `mount` call on a fresh handle against a clean system, with the
nsenter spawn and the ext4 mount succeeding. -/
def mountOnce (img : List Nat) (path : String) : Except String Unit × Sys :=
  mount_with_nsenter (freshManager path) img true true cleanSys

/-- A second `mount` call right after the first, on the same handle. -/
def mountTwice (img : List Nat) (path : String) : Except String Unit × Sys :=
  mount_with_nsenter (freshManager path) img true true (mountOnce img path).2

/-- `mount` followed by `unmount`, every subprocess succeeding. -/
def mountUnmount (img : List Nat) (path : String) :
    Except String Unit × Sys × List TearStep :=
  unmount_with_nsenter (freshManager path) true true true true (mountOnce img path).2

/-- A `mount` call whose in-namespace ext4 mount step fails after the
loop bind succeeded. -/
def mountFailed (img : List Nat) (path : String) : Except String Unit × Sys :=
  mount_with_nsenter (freshManager path) img true false cleanSys

/-- The system right after a successful mount of `img0`. -/
def sysInjected : Sys := (mountOnce img0 "crashcart.img").2

end Crashcart

namespace Crashcart

/-! ### Helper lemmas -/

theorem liveAfter_append (ops new : List LoopOp) :
    liveAfter (ops ++ new) = new.foldl applyLoopOp (liveAfter ops) := by
  simp [liveAfter, List.foldl_append]

theorem slotInv_init (path : String) : SlotInv ⟨path, none⟩ [] := by
  simp [SlotInv, liveAfter]

theorem slotInv_step (m : ImageManager) (ops : List LoopOp) (e : LoopEvent)
    (h : SlotInv m ops) :
    SlotInv (runLoopEvent m ops e).1 (runLoopEvent m ops e).2 := by
  obtain ⟨path, slot⟩ := m
  cases e with
  | setup f a =>
    cases slot with
    | some d =>
      simpa [runLoopEvent, setup_loop_device, SlotInv] using h
    | none =>
      cases f with
      | none => simpa [runLoopEvent, setup_loop_device, SlotInv] using h
      | some dev =>
        cases a with
        | false => simpa [runLoopEvent, setup_loop_device, SlotInv] using h
        | true =>
          simp [SlotInv] at h
          simp [runLoopEvent, setup_loop_device, SlotInv, liveAfter_append, h,
            applyLoopOp]
  | cleanup d =>
    cases slot with
    | none => simpa [runLoopEvent, cleanup_loop_device, SlotInv] using h
    | some dev =>
      cases d with
      | false => simpa [runLoopEvent, cleanup_loop_device, SlotInv] using h
      | true =>
        simp [SlotInv] at h
        simp [runLoopEvent, cleanup_loop_device, SlotInv, liveAfter_append, h,
          applyLoopOp]

theorem slotInv_foldl (es : List LoopEvent) :
    ∀ p : ImageManager × List LoopOp, SlotInv p.1 p.2 →
      SlotInv (es.foldl (fun q e => runLoopEvent q.1 q.2 e) p).1
              (es.foldl (fun q e => runLoopEvent q.1 q.2 e) p).2 := by
  induction es with
  | nil => intro p h; exact h
  | cons e es ih =>
    intro p h
    exact ih _ (slotInv_step p.1 p.2 e h)

theorem verify_image_ok_of_length (img : List Nat) (h : 1024 ≤ img.length) :
    ∃ k, verify_image img = .ok k := by
  unfold verify_image readAt
  rw [if_neg (by omega), if_pos (by omega)]
  by_cases h2 : 1080 + 2 ≤ img.length
  · rw [if_pos h2]
    dsimp only
    by_cases h3 : (img.drop 1080).take 2 = [0x53, 0xEF]
    · exact ⟨_, by rw [if_pos h3]⟩
    · exact ⟨_, by rw [if_neg h3]⟩
  · rw [if_neg h2]
    exact ⟨_, rfl⟩

theorem take_two_of_drop (l : List Nat) (n a b : Nat) :
    (l.drop n).take 2 = [a, b] ↔ l[n]? = some a ∧ l[n + 1]? = some b := by
  have h0 : l[n]? = (l.drop n)[0]? := by simp [List.getElem?_drop]
  have h1 : l[n + 1]? = (l.drop n)[1]? := by simp [List.getElem?_drop]
  rw [h0, h1]
  generalize l.drop n = L
  rcases L with _ | ⟨x, _ | ⟨y, ys⟩⟩ <;> simp

/-! ### Claim theorems -/

/-- C6: for every target string, detect first tries the u32 parse and
on success yields the Pid handle with no probe spawned; only after a
parse failure does it probe docker, then podman, then containerd, in
that order, and it fails with the not-found message when no probe
matches; get_pid on a Pid handle answers the stored value with no
subprocess. -/
theorem c6_resolution_order (t : String) (e : ProbeEnv) :
    (∀ n, parseU32 t = some n → detect t e = (.ok (.pid n), [])) ∧
    (parseU32 t = none → e.dockerOk t = true →
      detect t e = (.ok (.docker t), [.docker])) ∧
    (parseU32 t = none → e.dockerOk t = false → e.podmanOk t = true →
      detect t e = (.ok (.podman t), [.docker, .podman])) ∧
    (parseU32 t = none → e.dockerOk t = false → e.podmanOk t = false →
      e.ctrOk t = true →
      detect t e = (.ok (.containerd t), [.docker, .podman, .containerd])) ∧
    (parseU32 t = none → e.dockerOk t = false → e.podmanOk t = false →
      e.ctrOk t = false →
      detect t e = (.error (notFoundMsg t), [.docker, .podman, .containerd])) ∧
    (∀ (n : Nat) (pe : PidEnv), get_pid (.pid n) pe = (.ok n, [])) := by
  refine ⟨?_, ?_, ?_, ?_, ?_, ?_⟩ <;> intros <;> simp_all [detect, get_pid]

theorem c6_resolution_order_witness :
    detect "12345" probeEnvNone = (.ok (.pid 12345), []) ∧
    detect "does-not-exist" probeEnvNone
      = (.error (notFoundMsg "does-not-exist"), [.docker, .podman, .containerd]) ∧
    get_pid (.pid 12345) pidEnvNone = (.ok 12345, []) := by
  refine ⟨(c6_resolution_order "12345" probeEnvNone).1 12345 (by decide),
    (c6_resolution_order "does-not-exist" probeEnvNone).2.2.2.2.1
      (by decide) rfl rfl rfl,
    (c6_resolution_order "12345" probeEnvNone).2.2.2.2.2 12345 pidEnvNone⟩

/-- C10: every target string that parses as a u32 (zero included)
resolves to the Pid handle with that value, for every probe
environment, with no probe spawned and no check that any such process
exists. -/
theorem c10_numeric_target (t : String) (n : Nat) (e : ProbeEnv)
    (h : parseU32 t = some n) :
    detect t e = (.ok (.pid n), []) := by
  simp [detect, h]

theorem c10_numeric_target_witness :
    detect "0" probeEnvNone = (.ok (.pid 0), []) :=
  c10_numeric_target "0" 0 probeEnvNone (by decide)

/-- C7: verify_image fails exactly on images shorter than 1024 bytes,
classifies an image as an ext2/3/4 superblock exactly when the bytes at
offsets 1080 and 1081 are 0x53 0xEF (which forces a length of at least
1024), and otherwise succeeds tentatively as a non-ext format. -/
theorem c7_magic_byte_classification (bytes : List Nat) :
    ((∃ e, verify_image bytes = .error e) ↔ bytes.length < 1024) ∧
    (verify_image bytes = .ok .extFs ↔
      (1024 ≤ bytes.length ∧ bytes[1080]? = some 0x53 ∧
        bytes[1081]? = some 0xEF)) ∧
    (verify_image bytes = .ok .archive ↔
      (1024 ≤ bytes.length ∧
        ¬ (bytes[1080]? = some 0x53 ∧ bytes[1081]? = some 0xEF))) := by
  by_cases hlen : bytes.length < 1024
  · have hv : verify_image bytes = .error "Image file too small" := by
      unfold verify_image
      rw [if_pos hlen]
    refine ⟨?_, ?_, ?_⟩ <;> simp [hv, hlen]
  · have h1024 : 1024 ≤ bytes.length := Nat.le_of_not_lt hlen
    have hr0 : readAt bytes 0 1024 = some ((bytes.drop 0).take 1024) := by
      unfold readAt
      rw [if_pos (by omega)]
    by_cases h2 : 1080 + 2 ≤ bytes.length
    · have hr : readAt bytes 1080 2 = some ((bytes.drop 1080).take 2) := by
        unfold readAt
        rw [if_pos h2]
      by_cases h3 : (bytes.drop 1080).take 2 = [0x53, 0xEF]
      · have hv : verify_image bytes = .ok .extFs := by
          unfold verify_image
          rw [if_neg hlen, hr0, hr]
          dsimp only
          rw [if_pos h3]
        have hget := (take_two_of_drop bytes 1080 0x53 0xEF).mp h3
        refine ⟨?_, ?_, ?_⟩
        · simp [hv, hlen]
        · simp [hv, h1024, hget.1, hget.2]
        · simp [hv, hget.1, hget.2]
      · have hv : verify_image bytes = .ok .archive := by
          unfold verify_image
          rw [if_neg hlen, hr0, hr]
          dsimp only
          rw [if_neg h3]
        have hget : ¬ (bytes[1080]? = some 0x53 ∧ bytes[1081]? = some 0xEF) := by
          intro hc
          exact h3 ((take_two_of_drop bytes 1080 0x53 0xEF).mpr hc)
        refine ⟨?_, ?_, ?_⟩
        · simp [hv, hlen]
        · simp only [hv]
          constructor
          · intro hc
            cases hc
          · intro hc
            exact absurd ⟨hc.2.1, hc.2.2⟩ hget
        · simp only [hv]
          constructor
          · intro _
            exact ⟨h1024, hget⟩
          · intro _
            trivial
    · have hr : readAt bytes 1080 2 = none := by
        unfold readAt
        rw [if_neg h2]
      have hv : verify_image bytes = .ok .archive := by
        unfold verify_image
        rw [if_neg hlen, hr0, hr]
      have hget : bytes[1081]? = none := by
        apply List.getElem?_eq_none
        omega
      refine ⟨?_, ?_, ?_⟩
      · simp [hv, hlen]
      · simp [hv, hget]
      · simp [hv, h1024, hget]

/-- C8: on every event sequence the loop slot of an image handle is
non-empty exactly when a kernel binding created by that handle is live;
setup on an already bound handle returns the cached device with no
kernel operation; cleanup on a handle with a recorded device runs the
losetup detach of exactly that device and clears the slot; cleanup on
an unbound handle is a successful no-op. -/
theorem c8_loop_slot_invariant :
    (∀ (path : String) (es : List LoopEvent),
      SlotInv (runLoopEvents path es).1 (runLoopEvents path es).2) ∧
    (∀ (m : ImageManager) (d : String) (f : Option String) (a : Bool),
      m.loop_device = some d → setup_loop_device m f a = (m, .ok d, [])) ∧
    (∀ (m : ImageManager) (d : String),
      m.loop_device = some d →
        cleanup_loop_device m true
          = ({ m with loop_device := none }, .ok (), [.detach d])) ∧
    (∀ (m : ImageManager) (b : Bool),
      m.loop_device = none → cleanup_loop_device m b = (m, .ok (), [])) := by
  refine ⟨fun path es => slotInv_foldl es _ (slotInv_init path), ?_, ?_, ?_⟩
  · intro m d f a h
    simp [setup_loop_device, h]
  · intro m d h
    simp [cleanup_loop_device, h]
  · intro m b h
    simp [cleanup_loop_device, h]

theorem c8_loop_slot_invariant_witness :
    SlotInv
      (runLoopEvents "crashcart.img" [LoopEvent.setup (some "/dev/loop0") true]).1
      (runLoopEvents "crashcart.img" [LoopEvent.setup (some "/dev/loop0") true]).2 ∧
    setup_loop_device ⟨"crashcart.img", some "/dev/loop0"⟩ none false
      = (⟨"crashcart.img", some "/dev/loop0"⟩, .ok "/dev/loop0", []) ∧
    cleanup_loop_device ⟨"crashcart.img", some "/dev/loop0"⟩ true
      = (⟨"crashcart.img", none⟩, .ok (), [.detach "/dev/loop0"]) ∧
    cleanup_loop_device ⟨"crashcart.img", none⟩ false
      = (⟨"crashcart.img", none⟩, .ok (), []) :=
  ⟨c8_loop_slot_invariant.1 "crashcart.img" _,
   c8_loop_slot_invariant.2.1 _ "/dev/loop0" none false rfl,
   c8_loop_slot_invariant.2.2.1 _ "/dev/loop0" rfl,
   c8_loop_slot_invariant.2.2.2 _ false rfl⟩

/-- C9 (amended): exec_in_namespaces always spawns nsenter with the
flags -t pid -m -u -i -n -p followed by the double dash, but the argv
after the double dash is the image dynamic-linker invocation followed
by the caller cmd (or the default bash argv when cmd is empty), not the
caller cmd alone; the env pair is placed on the child only; the exit
code is propagated verbatim, with -1 substituted when signalled. -/
theorem c9_exec_dispatcher_amended (p : Nat) (command : List String)
    (envVar : Option (String × String)) :
    (∀ (spawnOk : Bool) (st : ExitStatus),
      (exec_in_namespace p command envVar spawnOk st).1
        = buildNsenterCommand p command envVar) ∧
    (buildNsenterCommand p command envVar).program = "nsenter" ∧
    (buildNsenterCommand p command envVar).args.take 8
      = ["-t", toString p, "-m", "-u", "-i", "-n", "-p", "--"] ∧
    (command ≠ [] → (buildNsenterCommand p command envVar).args.drop 8
      = ldSoPath :: "--library-path" :: libraryPathArg :: command) ∧
    (command = [] → (buildNsenterCommand p command envVar).args.drop 8
      = [ldSoPath, "--library-path", libraryPathArg,
         "/dev/crashcart/usr/bin/bash", "--rcfile",
         "/dev/crashcart/.crashcartrc", "-i"]) ∧
    (buildNsenterCommand p command envVar).extraEnv = envVar.toList ∧
    (∀ n : Int, (exec_in_namespace p command envVar true (.exited n)).2 = .ok n) ∧
    (∀ sig : Nat,
      (exec_in_namespace p command envVar true (.signalled sig)).2
        = .ok (-1)) := by
  refine ⟨fun _ _ => rfl, rfl, rfl, ?_, ?_, rfl, fun n => rfl, fun sig => rfl⟩
  · intro hne
    cases command with
    | nil => exact absurd rfl hne
    | cons c cs => rfl
  · intro he
    subst he
    rfl

theorem c9_exec_dispatcher_amended_witness :
    (buildNsenterCommand 2 ["sh"] (some ("CRASHCART_TARGET_PID", "2"))).args.drop 8
      = [ldSoPath, "--library-path", libraryPathArg, "sh"] ∧
    (buildNsenterCommand 2 [] none).args.drop 8
      = [ldSoPath, "--library-path", libraryPathArg,
         "/dev/crashcart/usr/bin/bash", "--rcfile",
         "/dev/crashcart/.crashcartrc", "-i"] ∧
    (exec_in_namespace 2 ["sh"] none true (.signalled 9)).2 = .ok (-1) :=
  ⟨(c9_exec_dispatcher_amended 2 ["sh"]
      (some ("CRASHCART_TARGET_PID", "2"))).2.2.2.1 (by decide),
   (c9_exec_dispatcher_amended 2 [] none).2.2.2.2.1 rfl,
   (c9_exec_dispatcher_amended 2 ["sh"] none).2.2.2.2.2.2.2 9⟩

/-- C9 counterexample: for pid 1 and cmd ["ls"], the argv after the
double dash is the dynamic-linker invocation followed by ["ls"], not
the caller cmd ["ls"] alone as the claim states. -/
theorem c9_exec_dispatcher_counterexample :
    (exec_in_namespace 1 ["ls"] none true (.exited 0)).1.args
      = ["-t", "1", "-m", "-u", "-i", "-n", "-p", "--",
         ldSoPath, "--library-path", libraryPathArg, "ls"] ∧
    (exec_in_namespace 1 ["ls"] none true (.exited 0)).1.args
      ≠ ["-t", "1", "-m", "-u", "-i", "-n", "-p", "--", "ls"] := by
  refine ⟨?_, ?_⟩ <;> decide

/-- C3 (code bug): the guard made for the net namespace of a target
with distinct (dev, ino) saves the original net descriptor, but its
Drop calls setns with CLONE_NEWNS, not the entry flag CLONE_NEWNET; the
kernel rejects the mismatched nstype, so after release the caller is
still attached to the target net namespace (1, 203) instead of its
original (1, 103). -/
theorem c3_guard_restore_flag_bug :
    enter_single_namespace nsSelf0 nsTarget0 NsType.net true true
      = .ok (NsView.set nsSelf0 NsType.net (1, 203),
             ⟨some ⟨1, 103, NsType.net⟩⟩) ∧
    cloneFlagFor NsType.net = CloneFlag.newnet ∧
    guardDropCalls ⟨some ⟨1, 103, NsType.net⟩⟩
      = [(⟨1, 103, NsType.net⟩, CloneFlag.newns)] ∧
    CloneFlag.newns ≠ CloneFlag.newnet ∧
    (guardDrop ⟨some ⟨1, 103, NsType.net⟩⟩
        (NsView.set nsSelf0 NsType.net (1, 203))).net = (1, 203) ∧
    nsSelf0.net = (1, 103) := by
  refine ⟨?_, ?_, ?_, ?_, ?_, ?_⟩ <;> decide

/-- C1 (amended): calling mount twice in a row succeeds and leaves the
target namespace exactly as after one call — no second tmpfs mount, no
second /dev/crashcart mount — but the second call reserves and binds a
second loop device to the same image, because the device recorded by
the first call lived on a clone of the handle that was discarded when
mount returned. -/
theorem c1_mount_idempotent_amended (img : List Nat) (h : 1024 ≤ img.length) :
    (mountOnce img "crashcart.img").1 = .ok () ∧
    (mountTwice img "crashcart.img").1 = .ok () ∧
    (mountTwice img "crashcart.img").2.ns = (mountOnce img "crashcart.img").2.ns ∧
    (mountOnce img "crashcart.img").2.loop = [("/dev/loop0", "crashcart.img")] ∧
    (mountTwice img "crashcart.img").2.loop
      = [("/dev/loop1", "crashcart.img"), ("/dev/loop0", "crashcart.img")] := by
  obtain ⟨k, hk⟩ := verify_image_ok_of_length img h
  refine ⟨?_, ?_, ?_, ?_, ?_⟩ <;>
    · simp only [mountOnce, mountTwice, mount_with_nsenter, hk]
      decide

theorem c1_mount_idempotent_amended_witness :
    (mountTwice img0 "crashcart.img").1 = .ok () ∧
    (mountTwice img0 "crashcart.img").2.loop
      = [("/dev/loop1", "crashcart.img"), ("/dev/loop0", "crashcart.img")] :=
  ⟨(c1_mount_idempotent_amended img0 (by decide)).2.1,
   (c1_mount_idempotent_amended img0 (by decide)).2.2.2.2⟩

/-- C1 counterexample: with the minimal valid image from a clean state,
the second mount succeeds but the end state differs from the state
after a single mount — two loop devices end up bound, refuting both the
same-end-state clause and the no-duplicate-bind clause. -/
theorem c1_mount_idempotent_counterexample :
    (mountTwice img0 "crashcart.img").1 = .ok () ∧
    (mountTwice img0 "crashcart.img").2 ≠ (mountOnce img0 "crashcart.img").2 ∧
    (mountTwice img0 "crashcart.img").2.loop.length = 2 := by
  refine ⟨?_, ?_, ?_⟩ <;> decide

/-- C2 (amended): mount followed by unmount empties the target mount
namespace — neither /dev/crashcart nor /dev/cc-loop remains mounted and
the directories are gone — but the loop device reserved by the mount
stays bound to the image, because the binding was recorded only on a
clone discarded inside mount, so the unmount cleanup sees an empty slot
and releases nothing. -/
theorem c2_symmetric_teardown_amended (img : List Nat) (h : 1024 ≤ img.length) :
    (mountUnmount img "crashcart.img").1 = .ok () ∧
    (mountUnmount img "crashcart.img").2.1.ns = ⟨[], [], []⟩ ∧
    (mountUnmount img "crashcart.img").2.1.loop
      = [("/dev/loop0", "crashcart.img")] := by
  obtain ⟨k, hk⟩ := verify_image_ok_of_length img h
  refine ⟨?_, ?_, ?_⟩ <;>
    · simp only [mountUnmount, mountOnce, mount_with_nsenter, hk]
      decide

theorem c2_symmetric_teardown_amended_witness :
    (mountUnmount img0 "crashcart.img").1 = .ok () ∧
    (mountUnmount img0 "crashcart.img").2.1.loop
      = [("/dev/loop0", "crashcart.img")] :=
  ⟨(c2_symmetric_teardown_amended img0 (by decide)).1,
   (c2_symmetric_teardown_amended img0 (by decide)).2.2⟩

/-- C2 counterexample: with the minimal valid image from a clean state,
after mount then unmount the namespace holds no mounts at all, yet the
loop device /dev/loop0 reserved by the mount is still bound to the
image, refuting the clause that the reserved device is no longer bound. -/
theorem c2_symmetric_teardown_counterexample :
    (mountUnmount img0 "crashcart.img").1 = .ok () ∧
    (mountUnmount img0 "crashcart.img").2.1.ns.mounts = [] ∧
    (mountUnmount img0 "crashcart.img").2.1.loop ≠ [] := by
  refine ⟨?_, ?_, ?_⟩ <;> decide

/-- C4 (amended): when the loop bind succeeds and a later in-namespace
step fails, mount returns the error but does not roll back the loop
bind — the device stays bound to the image (release would only happen
through the clone drop, which merely logs a warning) and the tmpfs
mounted at /dev/cc-loop is left behind, so the system is not back in
the Clean state. -/
theorem c4_mount_rollback_amended (img : List Nat) (h : 1024 ≤ img.length) :
    (mountFailed img "crashcart.img").1 = .error "Mount script failed" ∧
    (mountFailed img "crashcart.img").2.loop
      = [("/dev/loop0", "crashcart.img")] ∧
    isMountpoint (mountFailed img "crashcart.img").2.ns "/dev/cc-loop" = true ∧
    isMountpoint (mountFailed img "crashcart.img").2.ns "/dev/crashcart"
      = false := by
  obtain ⟨k, hk⟩ := verify_image_ok_of_length img h
  refine ⟨?_, ?_, ?_, ?_⟩ <;>
    · simp only [mountFailed, mount_with_nsenter, hk]
      decide

theorem c4_mount_rollback_amended_witness :
    (mountFailed img0 "crashcart.img").1 = .error "Mount script failed" ∧
    (mountFailed img0 "crashcart.img").2.loop
      = [("/dev/loop0", "crashcart.img")] :=
  ⟨(c4_mount_rollback_amended img0 (by decide)).1,
   (c4_mount_rollback_amended img0 (by decide)).2.1⟩

/-- C4 counterexample: with the minimal valid image from a clean state
and the ext4 mount step failing after a successful loop bind, mount
returns an error while the loop binding is still live and the tmpfs is
still mounted — not the Clean state with the loop released that the
claim requires. -/
theorem c4_mount_rollback_counterexample :
    (mountFailed img0 "crashcart.img").1 = .error "Mount script failed" ∧
    (mountFailed img0 "crashcart.img").2.loop ≠ [] ∧
    isMountpoint (mountFailed img0 "crashcart.img").2.ns "/dev/cc-loop"
      = true := by
  refine ⟨?_, ?_, ?_⟩ <;> decide

/-- C5 (amended): teardown is only partly best-effort.  In the nsenter
strategy the host-side loop release is always the final attempted step
and a failing script is downgraded to a warning (unmount still returns
success when the release half works), but the script runs under set -e,
so a failed step aborts the remaining in-namespace steps.  In the
in-process strategy a failed umount of /dev/crashcart aborts unmount
with an error and no later step — the loop release included — runs at
all. -/
theorem c5_unmount_best_effort_amended (m : ImageManager)
    (uCrashOk uLoopOk detachOk : Bool) (s : Sys) :
    (unmount_with_nsenter m true uCrashOk uLoopOk detachOk s).2.2
      = (runUnmountScript uCrashOk uLoopOk s.ns).2.2 ++ [TearStep.releaseLoop] ∧
    (m.loop_device = none →
      (unmount_with_nsenter m true uCrashOk uLoopOk detachOk s).1 = .ok ()) ∧
    (isMountpoint s.ns "/dev/crashcart" = true →
      runUnmountScript false uLoopOk s.ns
        = (false, s.ns, [TearStep.umountCrashcart])) ∧
    (isMountpoint s.ns "/dev/crashcart" = true →
      unmount_inproc m true false uLoopOk detachOk s
        = (.error "Failed to unmount crashcart filesystem", s,
           [TearStep.umountCrashcart])) := by
  refine ⟨?_, ?_, ?_, ?_⟩
  · simp only [unmount_with_nsenter, if_true]
    cases hc : (cleanup_loop_device m detachOk).2.1 <;> simp [hc]
  · intro h
    simp [unmount_with_nsenter, cleanup_loop_device, h]
  · intro h
    simp [runUnmountScript, h]
  · intro h
    simp [unmount_inproc, h]

theorem c5_unmount_best_effort_amended_witness :
    (unmount_with_nsenter (freshManager "crashcart.img") true false true true
        sysInjected).2.2
      = (runUnmountScript false true sysInjected.ns).2.2
        ++ [TearStep.releaseLoop] ∧
    (unmount_with_nsenter (freshManager "crashcart.img") true false true true
        sysInjected).1 = .ok () ∧
    runUnmountScript false true sysInjected.ns
      = (false, sysInjected.ns, [TearStep.umountCrashcart]) ∧
    unmount_inproc (freshManager "crashcart.img") true false true true
        sysInjected
      = (.error "Failed to unmount crashcart filesystem", sysInjected,
         [TearStep.umountCrashcart]) := by
  have h := c5_unmount_best_effort_amended (freshManager "crashcart.img")
    false true true sysInjected
  exact ⟨h.1, h.2.1 rfl, h.2.2.1 (by decide), h.2.2.2 (by decide)⟩

/-- C5 counterexample: in the in-process unmount, with /dev/crashcart
mounted and its umount failing, unmount returns an error rather than
logging a warning, the later steps do not run, and the host-side loop
release is never attempted — refuting both the every-step-best-effort
clause and the release-always-attempted clause. -/
theorem c5_unmount_best_effort_counterexample :
    (unmount_inproc (freshManager "crashcart.img") true false true true
        sysInjected).1
      = .error "Failed to unmount crashcart filesystem" ∧
    (unmount_inproc (freshManager "crashcart.img") true false true true
        sysInjected).2.2 = [TearStep.umountCrashcart] ∧
    TearStep.releaseLoop ∉
      (unmount_inproc (freshManager "crashcart.img") true false true true
        sysInjected).2.2 := by
  refine ⟨?_, ?_, ?_⟩ <;> decide
